import Mathlib

/-!
Shallow embedding of the DW1000 low-power listening examples
(EX_08A "LPLISTEN RX" listener and EX_08B "LPLISTEN TX" waker) from the
RT-LOC/zephyr-dwm1001 repository, together with proofs of the spec's claims.

Bytes are modelled as `Nat`; where the C code stores into a `uint8` or
`uint16` the embedding applies the corresponding `% 256` / `% 65536`.
Radio-driver calls made by the code are recorded in an explicit action
trace so that ordering claims ("sleeps before transmitting") can be stated.
-/

namespace LPL

/-! ## Protocol constants (EX_08A / EX_08B `#define`s) -/

/-- Fixed wake-up sequence frame length in bytes (`WUS_FRAME_LEN`). -/
def WUS_FRAME_LEN : Nat := 14

/-- Wake-up sequence frame duration including IFS, in microseconds
(`WUS_FRAME_TIME_US`). -/
def WUS_FRAME_TIME_US : Nat := 1130

/-- Interaction period maximum duration in milliseconds
(`INTERACTION_PERIOD_MAX_TIME_MS`). -/
def INTERACTION_PERIOD_MAX_TIME_MS : Nat := 50

/-- Number of frames composing the wake-up sequence (`WUS_FRAME_NB`). -/
def WUS_FRAME_NB : Nat := 1350

/-- Long sleep time in milliseconds (`LONG_SLEEP_TIME_MS`). -/
def LONG_SLEEP_TIME_MS : Nat := 1500

/-- Maximum standard 802.15.4 frame length; size of the waker's receive
buffer (`RX_BUF_LEN`). -/
def RX_BUF_LEN : Nat := 127

/-- Frame field indices (`DATA_FRAME_..._IDX`). -/
def DATA_FRAME_SEQ_NB_IDX : Nat := 2

/-- Index of the low PAN-ID byte. -/
def DATA_FRAME_PAN_ID_IDX : Nat := 3

/-- Index of the low destination-address byte. -/
def DATA_FRAME_DEST_ADDR_IDX : Nat := 5

/-- Index of the low source-address byte. -/
def DATA_FRAME_SRC_ADDR_IDX : Nat := 7

/-- Index of the application function-code byte. -/
def DATA_FRAME_APP_FCODE_IDX : Nat := 9

/-- Index of the low countdown byte. -/
def DATA_FRAME_WUS_CNTDWN_IDX : Nat := 10

/-- ASCII code of the character X, used in the hard-coded addresses. -/
def byteX : Nat := 88

/-- ASCII code of the character T. -/
def byteT : Nat := 84

/-- ASCII code of the character R. -/
def byteR : Nat := 82

/-! ## Radio-driver actions recorded as a trace -/

/-- One call into the radio driver, as issued by the listener's main loop
or interrupt callback.  `txFrame` bundles `dwt_writetxdata` /
`dwt_writetxfctrl` / `dwt_starttx` / the TXFRS-poll of one frame. -/
inductive RadioAction where
  /-- Reconfigure sleep for SPI chip-select wake:
  `dwt_configuresleep(DWT_PRESRV_SLEEP | DWT_CONFIG, DWT_WAKE_CS | DWT_SLP_EN)`. -/
  | configureSleepCS : RadioAction
  /-- Reconfigure sleep for low-power listening:
  `dwt_configuresleep(DWT_PRESRV_SLEEP | DWT_CONFIG | DWT_RX_EN, DWT_WAKE_SLPCNT | DWT_SLP_EN)`. -/
  | configureSleepLPL : RadioAction
  /-- The radio enters sleep (`dwt_entersleep`). -/
  | enterSleep : RadioAction
  /-- Blocking host sleep of the given number of milliseconds (`Sleep(ms)`). -/
  | sleepMs (ms : Nat) : RadioAction
  /-- Wake the DW1000 over SPI chip select (`dwt_spicswakeup`). -/
  | spiCsWakeup : RadioAction
  /-- Transmit one frame and await its transmit confirmation. -/
  | txFrame (frame : List Nat) : RadioAction
  /-- Re-enable low-power listening (`dwt_setlowpowerlistening(1)`). -/
  | setLowPowerListening : RadioAction
deriving Repr, DecidableEq

/-- Number of frame transmissions in a trace. -/
def txCount (tr : List RadioAction) : Nat :=
  tr.countP fun a => match a with
    | RadioAction.txFrame _ => true
    | _ => false

/-! ## Listener (EX_08A) state and interrupt callback -/

/-- Mutable state of the listener shared between the interrupt callback
and the main loop: the single-slot frame buffer `rx_buffer`, the
captured-frame flag `rx_frame` and the diagnostic drop counter
`non_wus_frame_rx_nb`. -/
structure ListenerState where
  rx_buffer : List Nat
  rx_frame : Bool
  non_wus_frame_rx_nb : Nat
deriving Repr, DecidableEq

/-- Wake-signature check performed by `rx_ok_cb` on the copied frame:
PAN ID `0xDECA` (bytes 4/3), source address the two characters T X
(bytes 8/7) and application code `0xE0` (byte 9). -/
def wus_signature_ok (buf : List Nat) : Bool :=
  (buf.getD (DATA_FRAME_PAN_ID_IDX + 1) 0 == 0xDE)
    && (buf.getD DATA_FRAME_PAN_ID_IDX 0 == 0xCA)
    && (buf.getD (DATA_FRAME_SRC_ADDR_IDX + 1) 0 == byteT)
    && (buf.getD DATA_FRAME_SRC_ADDR_IDX 0 == byteX)
    && (buf.getD DATA_FRAME_APP_FCODE_IDX 0 == 0xE0)

/-- The listener's RX-good-frame interrupt callback `rx_ok_cb`.
`datalength` is `cb_data->datalength`; `hw` is the content of the
hardware receive buffer, read by `dwt_readrxdata` only inside the
exact-length branch.  Returns the updated shared state and the trace of
radio calls the callback issued. -/
def rx_ok_cb (st : ListenerState) (datalength : Nat) (hw : List Nat) :
    ListenerState × List RadioAction :=
  let st1 :=
    if datalength == WUS_FRAME_LEN then
      let buf := hw.take datalength
      let st' := { st with rx_buffer := buf }
      if wus_signature_ok buf then { st' with rx_frame := true } else st'
    else st
  if !st1.rx_frame then
    ({ st1 with non_wus_frame_rx_nb := st1.non_wus_frame_rx_nb + 1 },
      [RadioAction.setLowPowerListening, RadioAction.enterSleep])
  else
    (st1, [])

/-! ## Countdown decode / encode -/

/-- Main-loop decode of the countdown field:
`(rx_buffer[11] << 8) + rx_buffer[10]`, stored into a `uint16`. -/
def decode_countdown (buf : List Nat) : Nat :=
  ((buf.getD (DATA_FRAME_WUS_CNTDWN_IDX + 1) 0) * 256
    + buf.getD DATA_FRAME_WUS_CNTDWN_IDX 0) % 65536

/-- Main-loop conversion of a countdown to the remaining burst time:
`wus_end_time_ms = (wus_end_frame_nb * WUS_FRAME_TIME_US) / 1000`
(the product is at most `65535 * 1130 < 2^32`, so `uint32` arithmetic
never wraps). -/
def wus_end_time_ms (buf : List Nat) : Nat :=
  (decode_countdown buf * WUS_FRAME_TIME_US) / 1000

/-! ## Listener main loop (EX_08A) -/

/-- The interaction response frame `interaction_msg` as a function of its
mutable sequence-number byte (byte 2, a `uint8`):
`{0x41, 0x88, seq, 0xCA, 0xDE, X, T, X, R, 0xE1, 0, 0}`. -/
def interaction_msg (seq : Nat) : List Nat :=
  [0x41, 0x88, seq % 256, 0xCA, 0xDE, byteX, byteT, byteX, byteR, 0xE1, 0, 0]

/-- Destination check of the main loop: the captured frame is addressed
to this node when its destination-address bytes 6/5 read R X. -/
def addressed_to_me (buf : List Nat) : Bool :=
  (buf.getD (DATA_FRAME_DEST_ADDR_IDX + 1) 0 == byteR)
    && (buf.getD DATA_FRAME_DEST_ADDR_IDX 0 == byteX)

/-- One iteration of the listener main loop, entered once the busy-wait
`while (!rx_frame)` has observed the captured-frame flag.  Takes the
shared state and the current sequence number of `interaction_msg`;
returns the updated state (flag cleared at the end of the iteration),
the updated sequence number and the trace of radio calls in program
order. -/
def dw_main_step (st : ListenerState) (seq : Nat) :
    ListenerState × Nat × List RadioAction :=
  let t := wus_end_time_ms st.rx_buffer
  if addressed_to_me st.rx_buffer then
    ({ st with rx_frame := false }, (seq + 1) % 256,
      [RadioAction.configureSleepCS, RadioAction.enterSleep,
        RadioAction.sleepMs t, RadioAction.spiCsWakeup,
        RadioAction.txFrame (interaction_msg seq),
        RadioAction.configureSleepLPL, RadioAction.setLowPowerListening,
        RadioAction.enterSleep])
  else
    ({ st with rx_frame := false }, seq,
      [RadioAction.configureSleepCS, RadioAction.enterSleep,
        RadioAction.sleepMs (t + INTERACTION_PERIOD_MAX_TIME_MS),
        RadioAction.spiCsWakeup,
        RadioAction.configureSleepLPL, RadioAction.setLowPowerListening,
        RadioAction.enterSleep])

/-! ## Sleep scheduler (EX_08A sleep-count calibration) -/

/-- Sleep-counter tick computation from EX_08A:
`sleep_cnt = ((LONG_SLEEP_TIME_MS * lp_osc_freq) / 1000) >> 12`,
generalised over the wanted duration as the spec's `compute_ticks`. -/
def compute_ticks (osc_freq wanted_ms : Nat) : Nat :=
  ((wanted_ms * osc_freq) / 1000) >>> 12

/-- Conversion of sleep-counter ticks back to milliseconds (the spec's
reading of the counter granularity: one tick is `4096` low-power
oscillator counts, at `osc_freq` counts per second). -/
def ticks_to_ms (osc_freq ticks : Nat) : Nat :=
  (ticks * 4096 * 1000) / osc_freq

/-! ## Waker (EX_08B) burst loop -/

/-- One wake-up sequence frame `wus_msg` as a function of the mutable
sequence-number byte and the countdown stamped at bytes 10/11
(`frame_counter & 0xFF` low, `frame_counter >> 8` high):
`{0x41, 0x88, seq, 0xCA, 0xDE, X, R, X, T, 0xE0, cnt_lo, cnt_hi, 0, 0}`. -/
def wus_msg (seq cnt : Nat) : List Nat :=
  [0x41, 0x88, seq % 256, 0xCA, 0xDE, byteX, byteR, byteX, byteT, 0xE0,
    cnt % 256, (cnt / 256) % 256, 0, 0]

/-- The waker's burst loop `while (frame_counter--)` started at
`frame_counter = n` with sequence byte `seq`: the C post-decrement tests
the counter, decrements it, and the body stamps the decremented value
as the countdown, transmits, then increments `seq` modulo 256.  Returns
the transmitted frames in order. -/
def wus_burst : Nat → Nat → List (List Nat)
  | 0, _ => []
  | n + 1, seq => wus_msg seq n :: wus_burst n ((seq + 1) % 256)

/-! ## Waker (EX_08B) response receive -/

/-- The waker's handling of a good response frame: read the reported
frame length, and only when `frame_len <= RX_BUF_LEN` read the frame out
of the hardware buffer into `rx_buffer`; otherwise the read is skipped
and the buffer is left as it was.  Total in all cases (no fault). -/
def response_receive (frame_len : Nat) (hw rx_buf : List Nat) : List Nat :=
  if frame_len ≤ RX_BUF_LEN then hw.take frame_len else rx_buf

end LPL

namespace LPL

/-! ## Helper lemmas -/

/-- Decoding the countdown field of a wake frame recovers the stamped
counter value (for values fitting in 16 bits, as `frame_counter` does). -/
theorem decode_wus_msg (seq v : Nat) (hv : v < 65536) :
    decode_countdown (wus_msg seq v) = v := by
  simp only [decode_countdown, wus_msg, DATA_FRAME_WUS_CNTDWN_IDX,
    List.getD_cons_succ, List.getD_cons_zero]
  omega

/-- Burst length: starting the waker loop at counter `n` emits `n` frames. -/
theorem wus_burst_length (n seq : Nat) : (wus_burst n seq).length = n := by
  induction n generalizing seq with
  | zero => rfl
  | succ n ih => simp [wus_burst, ih]

/-- The sequence byte of `wus_msg` is insensitive to reducing the
sequence argument modulo 256. -/
theorem wus_msg_mod (seq cnt : Nat) : wus_msg (seq % 256) cnt = wus_msg seq cnt := by
  simp [wus_msg]

/-- Frame `i` of a burst started at counter `n` with sequence byte `seq`
carries countdown `n - 1 - i` and sequence `seq + i`. -/
theorem wus_burst_getD (n seq i : Nat) (hi : i < n) :
    (wus_burst n seq).getD i [] = wus_msg (seq + i) (n - 1 - i) := by
  induction n generalizing seq i with
  | zero => omega
  | succ n ih =>
    cases i with
    | zero => simp [wus_burst]
    | succ i =>
      have hi' : i < n := by omega
      simp only [wus_burst, List.getD_cons_succ]
      rw [ih ((seq + 1) % 256) i hi']
      simp only [wus_msg]
      have h1 : ((seq + 1) % 256 + i) % 256 = (seq + (i + 1)) % 256 := by omega
      have h2 : n - 1 - i = n + 1 - 1 - (i + 1) := by omega
      rw [h1, h2]

end LPL

namespace LPL

/-! ## Claim theorems -/

/-- C1: a captured wake frame whose destination-address field matches the
listener's local address makes the main-loop iteration emit exactly one
`InteractionFrame` transmission, placed after the `remaining_ms` sleep
and the chip-select wake-up; the stored sequence number advances by one
modulo 256 and the transmitted sequence byte of consecutive successful
rendezvous likewise advances by one modulo 256. -/
theorem addressed_frame_single_tx (st : ListenerState) (seq : Nat)
    (haddr : addressed_to_me st.rx_buffer = true) :
    txCount (dw_main_step st seq).2.2 = 1
      ∧ (dw_main_step st seq).2.2
          = [RadioAction.configureSleepCS, RadioAction.enterSleep,
              RadioAction.sleepMs (wus_end_time_ms st.rx_buffer),
              RadioAction.spiCsWakeup,
              RadioAction.txFrame (interaction_msg seq),
              RadioAction.configureSleepLPL, RadioAction.setLowPowerListening,
              RadioAction.enterSleep]
      ∧ (dw_main_step st seq).2.1 = (seq + 1) % 256
      ∧ (interaction_msg seq).getD DATA_FRAME_SEQ_NB_IDX 0 = seq % 256
      ∧ (interaction_msg ((seq + 1) % 256)).getD DATA_FRAME_SEQ_NB_IDX 0
          = ((interaction_msg seq).getD DATA_FRAME_SEQ_NB_IDX 0 + 1) % 256 := by
  refine ⟨?_, ?_, ?_, ?_, ?_⟩ <;>
    simp [dw_main_step, haddr, txCount, interaction_msg, DATA_FRAME_SEQ_NB_IDX,
      List.countP_cons]

/-- C1 witness: a concrete captured frame addressed to the listener. -/
theorem addressed_frame_single_tx_witness :
    addressed_to_me (wus_msg 0 5) = true
      ∧ (txCount (dw_main_step ⟨wus_msg 0 5, true, 0⟩ 7).2.2 = 1
          ∧ (dw_main_step ⟨wus_msg 0 5, true, 0⟩ 7).2.2
              = [RadioAction.configureSleepCS, RadioAction.enterSleep,
                  RadioAction.sleepMs (wus_end_time_ms (wus_msg 0 5)),
                  RadioAction.spiCsWakeup,
                  RadioAction.txFrame (interaction_msg 7),
                  RadioAction.configureSleepLPL,
                  RadioAction.setLowPowerListening,
                  RadioAction.enterSleep]
          ∧ (dw_main_step ⟨wus_msg 0 5, true, 0⟩ 7).2.1 = (7 + 1) % 256
          ∧ (interaction_msg 7).getD DATA_FRAME_SEQ_NB_IDX 0 = 7 % 256
          ∧ (interaction_msg ((7 + 1) % 256)).getD DATA_FRAME_SEQ_NB_IDX 0
              = ((interaction_msg 7).getD DATA_FRAME_SEQ_NB_IDX 0 + 1) % 256) :=
  ⟨by decide, addressed_frame_single_tx ⟨wus_msg 0 5, true, 0⟩ 7 (by decide)⟩

/-- C2: the waker's burst loop started at `WUS_FRAME_NB = 1350` emits
exactly 1350 frames; frame `i` carries countdown `1349 - i` (so the
countdown fields are `N-1, N-2, ..., 0` in order) and sequence byte
`(seq0 + i) % 256` (the sequence number is incremented modulo 256 after
each transmission). -/
theorem burst_countdown_descending (seq0 i : Nat) (hi : i < WUS_FRAME_NB) :
    (wus_burst WUS_FRAME_NB seq0).length = WUS_FRAME_NB
      ∧ decode_countdown ((wus_burst WUS_FRAME_NB seq0).getD i [])
          = WUS_FRAME_NB - 1 - i
      ∧ ((wus_burst WUS_FRAME_NB seq0).getD i []).getD DATA_FRAME_SEQ_NB_IDX 0
          = (seq0 + i) % 256 := by
  refine ⟨wus_burst_length _ _, ?_, ?_⟩
  · rw [wus_burst_getD WUS_FRAME_NB seq0 i hi,
      decode_wus_msg (seq0 + i) (WUS_FRAME_NB - 1 - i) ?_]
    have : WUS_FRAME_NB = 1350 := rfl
    omega
  · rw [wus_burst_getD WUS_FRAME_NB seq0 i hi]
    simp [wus_msg, DATA_FRAME_SEQ_NB_IDX]

/-- C2 witness: frame 3 of a burst started with sequence byte 0. -/
theorem burst_countdown_descending_witness :
    3 < WUS_FRAME_NB
      ∧ ((wus_burst WUS_FRAME_NB 0).length = WUS_FRAME_NB
          ∧ decode_countdown ((wus_burst WUS_FRAME_NB 0).getD 3 [])
              = WUS_FRAME_NB - 1 - 3
          ∧ ((wus_burst WUS_FRAME_NB 0).getD 3 []).getD DATA_FRAME_SEQ_NB_IDX 0
              = (0 + 3) % 256) :=
  ⟨by decide, burst_countdown_descending 0 3 (by decide)⟩

/-- C3: a captured wake frame not addressed to this listener produces no
transmission; the iteration decodes
`remaining_ms = (countdown * 1130) / 1000` and sleeps
`remaining_ms + INTERACTION_PERIOD_MAX_TIME_MS` (50 ms) before
re-enabling low-power listening. -/
theorem not_addressed_no_tx (st : ListenerState) (seq : Nat)
    (haddr : addressed_to_me st.rx_buffer = false) :
    txCount (dw_main_step st seq).2.2 = 0
      ∧ wus_end_time_ms st.rx_buffer
          = (decode_countdown st.rx_buffer * 1130) / 1000
      ∧ (dw_main_step st seq).2.2
          = [RadioAction.configureSleepCS, RadioAction.enterSleep,
              RadioAction.sleepMs
                (wus_end_time_ms st.rx_buffer + INTERACTION_PERIOD_MAX_TIME_MS),
              RadioAction.spiCsWakeup,
              RadioAction.configureSleepLPL, RadioAction.setLowPowerListening,
              RadioAction.enterSleep]
      ∧ (dw_main_step st seq).2.1 = seq := by
  refine ⟨?_, rfl, ?_, ?_⟩ <;>
    simp [dw_main_step, haddr, txCount, List.countP_cons]

/-- C3 witness: a concrete captured frame carrying the waker's toggled
(other-node) destination address. -/
theorem not_addressed_no_tx_witness :
    addressed_to_me [0x41, 0x88, 9, 0xCA, 0xDE, 0, byteR, byteX, byteT,
        0xE0, 5, 0, 0, 0] = false
      ∧ (txCount (dw_main_step ⟨[0x41, 0x88, 9, 0xCA, 0xDE, 0, byteR, byteX,
            byteT, 0xE0, 5, 0, 0, 0], true, 0⟩ 7).2.2 = 0
          ∧ wus_end_time_ms [0x41, 0x88, 9, 0xCA, 0xDE, 0, byteR, byteX,
              byteT, 0xE0, 5, 0, 0, 0]
            = (decode_countdown [0x41, 0x88, 9, 0xCA, 0xDE, 0, byteR, byteX,
                byteT, 0xE0, 5, 0, 0, 0] * 1130) / 1000
          ∧ (dw_main_step ⟨[0x41, 0x88, 9, 0xCA, 0xDE, 0, byteR, byteX, byteT,
              0xE0, 5, 0, 0, 0], true, 0⟩ 7).2.2
            = [RadioAction.configureSleepCS, RadioAction.enterSleep,
                RadioAction.sleepMs
                  (wus_end_time_ms [0x41, 0x88, 9, 0xCA, 0xDE, 0, byteR,
                      byteX, byteT, 0xE0, 5, 0, 0, 0]
                    + INTERACTION_PERIOD_MAX_TIME_MS),
                RadioAction.spiCsWakeup,
                RadioAction.configureSleepLPL,
                RadioAction.setLowPowerListening,
                RadioAction.enterSleep]
          ∧ (dw_main_step ⟨[0x41, 0x88, 9, 0xCA, 0xDE, 0, byteR, byteX, byteT,
              0xE0, 5, 0, 0, 0], true, 0⟩ 7).2.1 = 7) :=
  ⟨by decide, not_addressed_no_tx _ 7 (by decide)⟩

end LPL

namespace LPL

/-- C4: a received frame whose reported length differs from the 14-byte
wake-frame size never sets the captured-frame flag: with the flag clear
before the event, it is still clear after `rx_ok_cb` runs, whatever the
hardware buffer holds, so the frame is never classified as addressed. -/
theorem wrong_length_never_captured (st : ListenerState) (len : Nat)
    (hw : List Nat) (hlen : len ≠ WUS_FRAME_LEN) (hflag : st.rx_frame = false) :
    ((rx_ok_cb st len hw).1).rx_frame = false := by
  simp [rx_ok_cb, hlen, hflag]

/-- C4 witness: a 12-byte frame event leaves the flag clear. -/
theorem wrong_length_never_captured_witness :
    (12 ≠ WUS_FRAME_LEN ∧ (⟨interaction_msg 0, false, 0⟩ : ListenerState).rx_frame = false)
      ∧ ((rx_ok_cb ⟨interaction_msg 0, false, 0⟩ 12 (interaction_msg 0)).1).rx_frame
          = false :=
  ⟨⟨by decide, by decide⟩,
    wrong_length_never_captured ⟨interaction_msg 0, false, 0⟩ 12
      (interaction_msg 0) (by decide) (by decide)⟩

/-- C5 counterexample: with the captured-frame flag still set and the
first captured frame in the buffer, a second addressed wake frame
completing reception does NOT leave the single-slot buffer unchanged:
`rx_ok_cb` copies the new frame over it. -/
theorem second_frame_cex :
    ((rx_ok_cb ⟨wus_msg 0 5, true, 0⟩ WUS_FRAME_LEN (wus_msg 1 4)).1).rx_buffer
      ≠ (⟨wus_msg 0 5, true, 0⟩ : ListenerState).rx_buffer := by decide

/-- C5 (amended): while the captured-frame flag is set, a second
wake-length frame completing reception produces no new event — the flag
stays set, the drop counter is untouched and no listening-resume calls
are issued, so the main loop still observes at most one undisposed
captured frame — but the single-slot buffer is overwritten with the new
frame's bytes. -/
theorem second_frame_while_flag_set (st : ListenerState) (hw : List Nat)
    (hflag : st.rx_frame = true) :
    ((rx_ok_cb st WUS_FRAME_LEN hw).1).rx_buffer = hw.take WUS_FRAME_LEN
      ∧ ((rx_ok_cb st WUS_FRAME_LEN hw).1).rx_frame = true
      ∧ ((rx_ok_cb st WUS_FRAME_LEN hw).1).non_wus_frame_rx_nb
          = st.non_wus_frame_rx_nb
      ∧ (rx_ok_cb st WUS_FRAME_LEN hw).2 = [] := by
  cases hsig : wus_signature_ok (hw.take WUS_FRAME_LEN) <;>
    simp [rx_ok_cb, hflag, hsig]

/-- C5 amended-claim witness: the concrete second-frame scenario of the
counterexample, evaluated through the amended theorem. -/
theorem second_frame_while_flag_set_witness :
    (⟨wus_msg 0 5, true, 0⟩ : ListenerState).rx_frame = true
      ∧ (((rx_ok_cb ⟨wus_msg 0 5, true, 0⟩ WUS_FRAME_LEN (wus_msg 1 4)).1).rx_buffer
            = (wus_msg 1 4).take WUS_FRAME_LEN
          ∧ ((rx_ok_cb ⟨wus_msg 0 5, true, 0⟩ WUS_FRAME_LEN (wus_msg 1 4)).1).rx_frame
            = true
          ∧ ((rx_ok_cb ⟨wus_msg 0 5, true, 0⟩ WUS_FRAME_LEN (wus_msg 1 4)).1).non_wus_frame_rx_nb
            = (⟨wus_msg 0 5, true, 0⟩ : ListenerState).non_wus_frame_rx_nb
          ∧ (rx_ok_cb ⟨wus_msg 0 5, true, 0⟩ WUS_FRAME_LEN (wus_msg 1 4)).2 = []) :=
  ⟨by decide, second_frame_while_flag_set ⟨wus_msg 0 5, true, 0⟩ (wus_msg 1 4) (by decide)⟩

/-- C6: the sleep-tick computation is
`((wanted_ms * osc_freq) / 1000) >> 12` in floor arithmetic, is
monotonic non-decreasing in `wanted_ms`, and never overestimates: the
ticks converted back to milliseconds never exceed `wanted_ms`. -/
theorem compute_ticks_props (f : Nat) (hf : 0 < f) :
    (∀ w, compute_ticks f w = w * f / 1000 / 2 ^ 12)
      ∧ (∀ w w', w ≤ w' → compute_ticks f w ≤ compute_ticks f w')
      ∧ ∀ w, ticks_to_ms f (compute_ticks f w) ≤ w := by
  refine ⟨fun w => Nat.shiftRight_eq_div_pow _ _, fun w w' h => ?_, fun w => ?_⟩
  · simp only [compute_ticks, Nat.shiftRight_eq_div_pow]
    exact Nat.div_le_div_right (Nat.div_le_div_right (Nat.mul_le_mul_right f h))
  · simp only [ticks_to_ms, compute_ticks, Nat.shiftRight_eq_div_pow,
      Nat.div_div_eq_div_mul]
    have h1 : w * f / (1000 * 2 ^ 12) * 4096 * 1000 = w * f / 4096000 * 4096000 := by
      norm_num; ring
    rw [h1]
    calc w * f / 4096000 * 4096000 / f
        ≤ w * f / f := Nat.div_le_div_right (Nat.div_mul_le_self _ _)
      _ = w := by rw [Nat.mul_div_assoc w (dvd_refl f), Nat.div_self hf, Nat.mul_one]

/-- C6 witness: a 9 kHz low-power oscillator. -/
theorem compute_ticks_props_witness :
    0 < 9000
      ∧ ((∀ w, compute_ticks 9000 w = w * 9000 / 1000 / 2 ^ 12)
          ∧ (∀ w w', w ≤ w' → compute_ticks 9000 w ≤ compute_ticks 9000 w')
          ∧ ∀ w, ticks_to_ms 9000 (compute_ticks 9000 w) ≤ w) :=
  ⟨by decide, compute_ticks_props 9000 (by decide)⟩

end LPL

namespace LPL

/-- C7: a received frame failing the length check or the wake signature
check is dropped silently inside the interrupt handler: with the
captured-frame flag clear before the event it stays clear, the drop
counter `non_wus_frame_rx_nb` increments by exactly one, and the
handler's only radio calls re-enable low-power listening and re-enter
sleep — nothing is fatal. -/
theorem malformed_frame_dropped (st : ListenerState) (len : Nat)
    (hw : List Nat) (hflag : st.rx_frame = false)
    (hmal : len ≠ WUS_FRAME_LEN
      ∨ wus_signature_ok (hw.take WUS_FRAME_LEN) = false) :
    ((rx_ok_cb st len hw).1).rx_frame = false
      ∧ ((rx_ok_cb st len hw).1).non_wus_frame_rx_nb
          = st.non_wus_frame_rx_nb + 1
      ∧ (rx_ok_cb st len hw).2
          = [RadioAction.setLowPowerListening, RadioAction.enterSleep] := by
  by_cases hlen : len = WUS_FRAME_LEN
  · subst hlen
    rcases hmal with h | h
    · exact absurd rfl h
    · simp [rx_ok_cb, hflag, h]
  · simp [rx_ok_cb, hflag, hlen]

/-- C7 witness: a 14-byte frame with a wrong application code. -/
theorem malformed_frame_dropped_witness :
    ((⟨interaction_msg 0, false, 3⟩ : ListenerState).rx_frame = false
        ∧ (14 ≠ WUS_FRAME_LEN
            ∨ wus_signature_ok ((interaction_msg 1 ++ [0, 0]).take WUS_FRAME_LEN)
                = false))
      ∧ (((rx_ok_cb ⟨interaction_msg 0, false, 3⟩ 14 (interaction_msg 1 ++ [0, 0])).1).rx_frame
            = false
          ∧ ((rx_ok_cb ⟨interaction_msg 0, false, 3⟩ 14 (interaction_msg 1 ++ [0, 0])).1).non_wus_frame_rx_nb
            = (⟨interaction_msg 0, false, 3⟩ : ListenerState).non_wus_frame_rx_nb + 1
          ∧ (rx_ok_cb ⟨interaction_msg 0, false, 3⟩ 14 (interaction_msg 1 ++ [0, 0])).2
            = [RadioAction.setLowPowerListening, RadioAction.enterSleep]) :=
  ⟨⟨by decide, by decide⟩,
    malformed_frame_dropped ⟨interaction_msg 0, false, 3⟩ 14
      (interaction_msg 1 ++ [0, 0]) (by decide) (by decide)⟩

/-- C8: the waker's response-frame length gate accepts a frame of exactly
the maximum standard length (127 bytes: the read into the local buffer
happens) and rejects a 128-byte frame without fault (the out-of-bounds
read is skipped, the local buffer is left unchanged and execution
continues). -/
theorem response_length_boundary :
    (∀ hw buf : List Nat, response_receive 127 hw buf = hw.take 127)
      ∧ (∀ hw buf : List Nat, response_receive 128 hw buf = buf) := by
  constructor <;> intro hw buf <;> simp [response_receive, RX_BUF_LEN]

/-- C9: encoding a 16-bit countdown value into the 2-byte little-endian
field at bytes 10/11 of a wake frame and decoding that field with
`(buf[11] << 8) + buf[10]` returns the original value. -/
theorem countdown_roundtrip (seq v : Nat) (hv : v < 65536) :
    decode_countdown (wus_msg seq v) = v :=
  decode_wus_msg seq v hv

/-- C9 witness: the spec's round-trip instance, countdown value 42. -/
theorem countdown_roundtrip_witness :
    42 < 65536 ∧ decode_countdown (wus_msg 0 42) = 42 :=
  ⟨by decide, countdown_roundtrip 0 42 (by decide)⟩

/-- C10: a received-frame event whose reported length is not the 14-byte
wake-frame size never reads the hardware receive buffer: the result of
`rx_ok_cb` is the same for any two hardware-buffer contents, and the
shared single-slot buffer and captured-frame flag are unchanged (only
the drop counter and the radio's listening configuration can change). -/
theorem wrong_length_frame_effect (st : ListenerState) (len : Nat)
    (hw hw' : List Nat) (hlen : len ≠ WUS_FRAME_LEN) :
    ((rx_ok_cb st len hw).1).rx_buffer = st.rx_buffer
      ∧ ((rx_ok_cb st len hw).1).rx_frame = st.rx_frame
      ∧ rx_ok_cb st len hw = rx_ok_cb st len hw' := by
  cases hflag : st.rx_frame <;> simp [rx_ok_cb, hlen, hflag]

/-- C10 witness: a 3-byte event with two different hardware contents. -/
theorem wrong_length_frame_effect_witness :
    3 ≠ WUS_FRAME_LEN
      ∧ (((rx_ok_cb ⟨wus_msg 0 5, true, 0⟩ 3 [1, 2, 3]).1).rx_buffer
            = (⟨wus_msg 0 5, true, 0⟩ : ListenerState).rx_buffer
          ∧ ((rx_ok_cb ⟨wus_msg 0 5, true, 0⟩ 3 [1, 2, 3]).1).rx_frame
            = (⟨wus_msg 0 5, true, 0⟩ : ListenerState).rx_frame
          ∧ rx_ok_cb ⟨wus_msg 0 5, true, 0⟩ 3 [1, 2, 3]
            = rx_ok_cb ⟨wus_msg 0 5, true, 0⟩ 3 [9, 9]) :=
  ⟨by decide, wrong_length_frame_effect ⟨wus_msg 0 5, true, 0⟩ 3 [1, 2, 3] [9, 9] (by decide)⟩

end LPL
